import Mathlib

/-!
Verification of the container build-caching and lifecycle-reconciliation core of
the `containers` repository, as a shallow embedding in Lean 4.

The embedding covers:
* the per-Dockerfile lockfile (`src/src/lockfile.rs`): `DockerfileInfo::from_path`,
  `Lockfile::load_or_create`, `Lockfile::update_dockerfile_info`,
  `Lockfile::has_dockerfile_changed`;
* the engine-type parsing and display (`src/containers/src/engine.rs`);
* the build decision and lifecycle reconciliation of `src/containers/src/main.rs`;
* exit-status handling of `run_container` (`src/src/main.rs`) and
  `ContainerEngine::exec_container` (`src/containers/src/container.rs`);
* the build flow `build_containers` (`src/src/main.rs`) and the Dockerfile
  generator (`src/src/dockerfile.rs`).

File I/O and subprocess execution are abstracted into explicit inputs: file
contents become values, the SHA-256 digest becomes an explicit hash-function
argument (only its determinism matters to any statement below), and the engine
becomes an oracle reporting the outcome of each operation.
-/

/-! ### Per-Dockerfile lockfile (src/src/lockfile.rs) -/

/-- Metadata about a specific Dockerfile (`DockerfileInfo` in src/src/lockfile.rs):
SHA-256 hash of the content, last modification time as a Unix timestamp, and
size in bytes. -/
structure DockerfileInfo where
  content_hash : String
  modified_time : Nat
  size : Nat
deriving DecidableEq, Repr

/-- The on-disk observation `DockerfileInfo::from_path` makes of a file: its raw
content bytes and its modification timestamp (the size is derived from the
content). File I/O is abstracted to this explicit value. -/
structure FileData where
  content : List Nat
  mtime : Nat
deriving DecidableEq, Repr

/-- The per-Dockerfile lockfile (`Lockfile` in src/src/lockfile.rs): a format
version and a map from Dockerfile path to its metadata. The `HashMap` is
modelled as an association list read through `List.lookup`. -/
structure Lockfile where
  version : Nat
  dockerfiles : List (String × DockerfileInfo)
deriving DecidableEq, Repr

/-- Current version of the lockfile format (`Lockfile::VERSION`). -/
def Lockfile.VERSION : Nat := 1

/-- `Lockfile::new`: an empty lockfile at the current format version. -/
def Lockfile.new : Lockfile :=
  { version := Lockfile.VERSION, dockerfiles := [] }

/-- `DockerfileInfo::from_path`: reads the file content, hashes it (the SHA-256
digest of the `sha2` crate is abstracted as the explicit `hashFn` argument),
and records the modification time and byte size. -/
def DockerfileInfo.from_path (hashFn : List Nat → String) (f : FileData) :
    DockerfileInfo :=
  { content_hash := hashFn f.content
    modified_time := f.mtime
    size := f.content.length }

/-- `HashMap::insert` semantics on the association-list model: any existing
entry for the key is replaced. -/
def mapInsert (k : String) (v : DockerfileInfo)
    (m : List (String × DockerfileInfo)) : List (String × DockerfileInfo) :=
  (k, v) :: m.filter (fun p => !(p.1 == k))

/-- `Lockfile::update_dockerfile_info`: stores the current observation of the
file under its path. -/
def Lockfile.update_dockerfile_info (hashFn : List Nat → String) (lf : Lockfile)
    (dockerfile_path : String) (f : FileData) : Lockfile :=
  { lf with
    dockerfiles :=
      mapInsert dockerfile_path (DockerfileInfo.from_path hashFn f)
        lf.dockerfiles }

/-- `Lockfile::has_dockerfile_changed`: recomputes the current metadata
(including the hash, unconditionally) and compares it against the stored
record; with no stored record the file counts as changed. -/
def Lockfile.has_dockerfile_changed (hashFn : List Nat → String) (lf : Lockfile)
    (dockerfile_path : String) (f : FileData) : Bool :=
  let current_info := DockerfileInfo.from_path hashFn f
  match lf.dockerfiles.lookup dockerfile_path with
  | some stored_info =>
      (stored_info.content_hash != current_info.content_hash) ||
      (stored_info.modified_time != current_info.modified_time) ||
      (stored_info.size != current_info.size)
  | none => true

/-- The change signal exactly as the specification sentence under verification
words it: the stored hash differing from the current hash is the change signal,
the hash comparison being authoritative (kept separate from the source-derived
`Lockfile.has_dockerfile_changed` for comparison). -/
def hashAuthoritativeChanged (hashFn : List Nat → String) (lf : Lockfile)
    (dockerfile_path : String) (f : FileData) : Bool :=
  match lf.dockerfiles.lookup dockerfile_path with
  | some stored_info => stored_info.content_hash != hashFn f.content
  | none => true

/-- Failure mode of `Lockfile::load_or_create`: the lockfile exists but its
contents cannot be parsed. -/
inductive LoadError
  | parseFailed
deriving DecidableEq, Repr

/-- `Lockfile::load_or_create` over an abstract view of the filesystem: `none`
means the lockfile does not exist, `some c` that it holds text `c`. The
`serde_json::from_str` parser is abstracted as the `parse` argument. A missing
file yields a fresh empty lockfile; an unparseable file is a fatal error. -/
def load_or_create (parse : String → Option Lockfile) (fs : Option String) :
    Except LoadError Lockfile :=
  match fs with
  | some content =>
      match parse content with
      | some lf => Except.ok lf
      | none => Except.error LoadError.parseFailed
  | none => Except.ok Lockfile.new

/-! ### Engine types (src/containers/src/engine.rs) -/

/-- Supported container engine types (`EngineType`). -/
inductive EngineType
  | Docker
  | Podman
deriving DecidableEq, Repr

/-- `EngineType::as_command`: the executable name for the engine. -/
def EngineType.as_command : EngineType → String
  | EngineType.Docker => "docker"
  | EngineType.Podman => "podman"

/-- `impl fmt::Display for EngineType` writes exactly `as_command`. -/
def EngineType.display (e : EngineType) : String :=
  e.as_command

/-- Rust `str::to_lowercase`, modelled as a per-character lowercase map (the
engine names involved are ASCII, where the two coincide). -/
def toLowerStr (s : String) : String :=
  String.mk (s.data.map Char.toLower)

/-- `impl FromStr for EngineType`: matches on the lowercased input, rejecting
anything that is not "docker" or "podman". -/
def EngineType.from_str (s : String) : Except String EngineType :=
  if toLowerStr s = "docker" then Except.ok EngineType.Docker
  else if toLowerStr s = "podman" then Except.ok EngineType.Podman
  else Except.error ("Unknown engine type: " ++ s)

/-! ### Build decision and lifecycle reconciliation (src/containers/src/main.rs) -/

/-- Outcome of the build-planning decision. -/
inductive Plan
  | Build
  | Skip
deriving DecidableEq, Repr

/-- `let should_build = update_image || !image_exists(...)` at
src/containers/src/main.rs:70. -/
def should_build (update_image image_exists : Bool) : Bool :=
  update_image || !image_exists

/-- The build decision of src/containers/src/main.rs lines 69-86: the build
block runs only when the Dockerfile exists, and then builds iff
`should_build update_image image_exists`. -/
def buildPlan (dockerfile_exists update_image image_exists : Bool) : Plan :=
  if dockerfile_exists then
    if should_build update_image image_exists then Plan.Build else Plan.Skip
  else Plan.Skip

/-- The decision procedure exactly as the claim under verification words it
(kept separate from the source-derived `buildPlan` for comparison): force flag
first, then image absence, then the lockfile change check, else skip. -/
def planClaim (force image_exists lock_changed : Bool) : Plan :=
  if force then Plan.Build
  else if !image_exists then Plan.Build
  else if lock_changed then Plan.Build
  else Plan.Skip

/-- Engine operations the lifecycle reconciliation can invoke. -/
inductive EngineAction
  | createAndRun
  | start
  | exec
deriving DecidableEq, Repr

/-- Lifecycle reconciliation of src/containers/src/main.rs lines 88-108, as the
ordered trace of engine actions invoked for the observed
(container exists, container running) state. -/
def reconcile (container_exists container_running : Bool) : List EngineAction :=
  if container_exists then
    if container_running then [EngineAction.exec]
    else [EngineAction.start, EngineAction.exec]
  else [EngineAction.createAndRun]

/-! ### Exit-status handling (src/src/main.rs, src/containers/src/container.rs) -/

/-- Exit status of a finished subprocess: `code = some n` when the process
exited with code `n`, `none` when no code is available (signal termination).
`success` holds exactly for code 0, as for `std::process::ExitStatus`. -/
structure ExitStatus where
  code : Option Int
deriving DecidableEq, Repr

/-- `ExitStatus::success`. -/
def ExitStatus.success (s : ExitStatus) : Bool :=
  s.code == some 0

/-- Error type of the containers crate (`ContainerError` in
src/containers/src/errors.rs). -/
inductive ContainerError
  | EngineNotFound (s : String)
  | ContainerNotFound (s : String)
  | ImageNotFound (s : String)
  | BuildFailed (s : String)
  | CommandFailed (s : String)
  | DockerfileNotFound (s : String)
deriving DecidableEq, Repr

/-- `ContainerEngine::exec_container` (src/containers/src/container.rs:253-270),
with the final exit status of the attached session passed in: a successful status
returns `Ok(())`, any other status is wrapped as `CommandFailed`. -/
def exec_container (container_name : String) (status : ExitStatus) :
    Except ContainerError Unit :=
  if status.success then Except.ok ()
  else
    Except.error (ContainerError.CommandFailed
      ("exec -it " ++ container_name ++ " /bin/bash"))

/-- Result of the attach path of the `run` command as seen by the caller: normal
completion, or process exit with the given code. -/
inductive RunResult
  | ok
  | exited (n : Int)
deriving DecidableEq, Repr

/-- The tail of `run_container` (src/src/main.rs:252-258): when the attached
session status is unsuccessful the process exits with the session own exit
code, defaulting to 1 when the status carries no code. -/
def forward_exit (status : ExitStatus) : RunResult :=
  if status.success then RunResult.ok
  else RunResult.exited (status.code.getD 1)

/-! ### Container definitions, lock records and the build flow (src/src/main.rs)

The module defining `ContainerConfig`, `ContainersToml`, `ContainerLock` and
`Lockfile::generate_from_config` for the `containers.toml` mode is not among
the provided sources; only its use sites in `src/src/main.rs` and
`src/src/dockerfile.rs` are. Those types and the lock generation are therefore
modelled from the spec (sections 3 and 4), faithful to the fields the provided
code reads. -/

/-- Modelled from the spec: a declared dependency (spec section 3, Dependency) —
`package` required, `version` optional meaning "latest" when absent, `source`
an optional package-manager identifier. -/
structure Dependency where
  package : String
  version : Option String
  source : Option String
deriving DecidableEq, Repr

/-- Modelled from the spec: the per-container definition (spec section 3,
ContainerDefinition), restricted to the fields the provided code reads
(`config.environment`, `config.command` in the generator; the definition map in
`build_containers`). The environment mapping iterates in sorted key order
(spec: insertion order irrelevant, rendered sorted by key). -/
structure ContainerConfig where
  name : String
  base_image : Option String
  command : Option (List String)
  environment : Option (List (String × String))
  dependencies : List Dependency
deriving DecidableEq, Repr

/-- Modelled from the spec: a resolved dependency lock (spec section 3,
DependencyLock) — version and source are concrete, never absent. -/
structure DependencyLock where
  package : String
  version : String
  source : String
deriving DecidableEq, Repr

/-- The per-container lock record as consumed by the provided code
(`lock.base_image`, `lock.dependencies`, `lock.image_hash`); modelled from the
spec (section 3, LockRecord) for the fields themselves. -/
structure ContainerLock where
  base_image : String
  dependencies : List DependencyLock
  image_hash : String
deriving DecidableEq, Repr

/-- Modelled from the spec: resolution of one definition into its lock record —
the base image defaults to a fixed base when absent, dependency versions
resolve to "latest" when unspecified, sources default to "apt", and the derived
image tag is a deterministic function of the container name (the digest
computation itself is abstracted; no statement below depends on its value). -/
def resolveLock (name : String) (cfg : ContainerConfig) : ContainerLock :=
  { base_image := cfg.base_image.getD "ubuntu:latest"
    dependencies := cfg.dependencies.map (fun d =>
      { package := d.package
        version := d.version.getD "latest"
        source := d.source.getD "apt" })
    image_hash := "containers-" ++ name }

/-- The `containers.lock` store of the `containers.toml` mode: a map from
container name to its lock record. -/
structure ContainersLockfile where
  containers : List (String × ContainerLock)
deriving DecidableEq, Repr

/-- Modelled from the spec: `Lockfile::generate_from_config` (called at
src/src/main.rs:81 but not among the provided sources) resolves every
definition in the config into a lock record, keyed by container name. -/
def generate_from_config (cs : List (String × ContainerConfig)) :
    ContainersLockfile :=
  { containers := cs.map (fun p => (p.1, resolveLock p.1 p.2)) }

/-- The filesystem state `build_containers` mutates, restricted to the persisted
`containers.lock` (`none` = the file is absent). -/
structure FsState where
  containers_lock : Option ContainersLockfile
deriving DecidableEq, Repr

/-- Failure modes of `build_containers` after the config has been parsed. -/
inductive BuildError
  | notInConfig (name : String)
  | notInLockfile (name : String)
  | buildFailed (name : String)
deriving DecidableEq, Repr

/-- The per-container loop of `build_containers` (src/src/main.rs:90-132): look
the name up in the config and in the freshly generated lockfile, render the
Dockerfile (a write outside the lockfile, not tracked here), run the engine
build, and stop at the first failure. `engine name = false` models the engine
reporting a failed build for that container. -/
def buildLoop (cfg : List (String × ContainerConfig)) (lock : ContainersLockfile)
    (engine : String → Bool) : List String → Except BuildError Unit
  | [] => Except.ok ()
  | name :: rest =>
    match cfg.lookup name with
    | none => Except.error (BuildError.notInConfig name)
    | some _ =>
      match lock.containers.lookup name with
      | none => Except.error (BuildError.notInLockfile name)
      | some _ =>
        if engine name then buildLoop cfg lock engine rest
        else Except.error (BuildError.buildFailed name)

/-- `build_containers` (src/src/main.rs:77-135), from the point where
`containers.toml` has parsed successfully: regenerate the lockfile from the
config, persist it, then build each selected container in turn. The second
component is the resulting filesystem state. -/
def build_containers (cfg : List (String × ContainerConfig))
    (engine : String → Bool) (target : Option String) (s : FsState) :
    Except BuildError Unit × FsState :=
  let lockfile := generate_from_config cfg
  let s1 : FsState := { s with containers_lock := some lockfile }
  let names := match target with
    | some n => [n]
    | none => cfg.map Prod.fst
  (buildLoop cfg lockfile engine names, s1)

/-! ### Dockerfile generation (src/src/dockerfile.rs) -/

/-- The single-quote character, kept out of string literals. -/
def squote : String := String.singleton (Char.ofNat 39)

/-- Ordering of environment entries by key: lexicographic on the key
characters (a `BTreeMap`-style key order). -/
def keyLe (a b : String × String) : Prop := a.1.data ≤ b.1.data

instance : DecidableRel keyLe := fun a b =>
  inferInstanceAs (Decidable (a.1.data ≤ b.1.data))

instance : IsTotal (String × String) keyLe :=
  ⟨fun a b => le_total a.1.data b.1.data⟩

instance : IsTrans (String × String) keyLe :=
  ⟨fun _ _ _ h1 h2 => le_trans h1 h2⟩

/-- Modelled from the spec: the iteration order of the environment mapping in
`for (key, value) in env_vars` — the spec fixes it as sorted by key. -/
def sortEnv (l : List (String × String)) : List (String × String) :=
  List.insertionSort keyLe l

/-- One dependency-installation line of `DockerfileGenerator::generate`
(src/src/dockerfile.rs:22-49), dispatched on the `source` of the lock. -/
def depLine (dep : DependencyLock) : String :=
  if dep.source == "apt" then
    "RUN apt-get update && apt-get install -y " ++
      (if dep.version != "latest" then dep.package ++ "=" ++ dep.version
       else dep.package) ++
      " && rm -rf /var/lib/apt/lists/*\n"
  else if dep.source == "pip" then
    "RUN pip install " ++
      (if dep.version != "latest" then dep.package ++ "==" ++ dep.version
       else dep.package) ++
      "\n"
  else
    "# TODO: Install " ++ dep.package ++ " from " ++ dep.source ++ "\n"

/-- The dependency block of `DockerfileGenerator::generate`: empty when there
are no dependencies. -/
def depsBlock (deps : List DependencyLock) : String :=
  if deps.isEmpty then ""
  else "# Install dependencies\n" ++ String.join (deps.map depLine) ++ "\n"

/-- The environment block of `DockerfileGenerator::generate`
(src/src/dockerfile.rs:53-59): one ENV line per entry, in map order. -/
def envBlock : Option (List (String × String)) → String
  | some env_vars =>
      "# Set environment variables\n" ++
      String.join ((sortEnv env_vars).map
        (fun kv => "ENV " ++ kv.1 ++ "=" ++ kv.2 ++ "\n")) ++
      "\n"
  | none => ""

/-- The trailing CMD directive: present only when the definition specifies a
command. -/
def cmdBlock : Option (List String) → String
  | some cmd =>
      "CMD [" ++
        String.intercalate ", " (cmd.map (fun s => "\"" ++ s ++ "\"")) ++ "]\n"
  | none => ""

/-- The fixed user-creation block of `DockerfileGenerator::generate`. -/
def userBlock : String :=
  "# Create user\n" ++
  "ARG UID=1000\n" ++
  "ARG GID=1000\n" ++
  "RUN groupadd -g $GID code && \\\n" ++
  "    useradd -m -u $UID -g $GID -s /bin/bash code && \\\n" ++
  "    usermod -aG sudo code && \\\n" ++
  "    echo " ++ squote ++ "code ALL=(ALL) NOPASSWD: ALL" ++ squote ++
  " >> /etc/sudoers\n\n"

/-- `DockerfileGenerator::generate` (src/src/dockerfile.rs:10-88): renders, in
fixed order, the base-image directive, the system-dependency step, one step per
locked dependency, the environment block, the user-creation block, the
entrypoint installation, and a final CMD only when the definition has one. -/
def generate (config : ContainerConfig) (lock : ContainerLock) : String :=
  "FROM " ++ lock.base_image ++ "\n\n" ++
  "# Install system dependencies\n" ++
  "RUN apt-get update && apt-get install -y \\\n" ++
  "    sudo \\\n" ++
  "    && rm -rf /var/lib/apt/lists/*\n\n" ++
  depsBlock lock.dependencies ++
  envBlock config.environment ++
  userBlock ++
  "# Copy and set entrypoint\n" ++
  "COPY entrypoint.sh /entrypoint.sh\n" ++
  "RUN chmod +x /entrypoint.sh\n\n" ++
  "USER code\n" ++
  "WORKDIR /home/code/work\n\n" ++
  "ENTRYPOINT [\"/entrypoint.sh\"]\n" ++
  cmdBlock config.command

/-! ### Helper lemmas -/

theorem string_data_inj {a b : String} (h : a.data = b.data) : a = b := by
  cases a
  cases b
  exact congrArg String.mk h

/-- Strict version of the key order. -/
def keyLt (a b : String × String) : Prop := a.1.data < b.1.data

instance : IsAntisymm (String × String) keyLt :=
  ⟨fun _ _ h1 h2 => ((lt_asymm h1) h2).elim⟩

theorem sorted_keyLt_of_nodupKeys {l : List (String × String)}
    (hs : l.Sorted keyLe) (hn : (l.map Prod.fst).Nodup) : l.Sorted keyLt := by
  have hne : l.Pairwise (fun a b : String × String => a.1 ≠ b.1) :=
    List.pairwise_map.mp hn
  have hand := List.Pairwise.and hs hne
  refine hand.imp ?_
  intro a b h
  exact lt_of_le_of_ne h.1 (fun hd => h.2 (string_data_inj hd))

theorem sortEnv_eq_of_perm {l₁ l₂ : List (String × String)} (hp : l₁.Perm l₂)
    (hn : (l₁.map Prod.fst).Nodup) : sortEnv l₁ = sortEnv l₂ := by
  have hperm₁ : (sortEnv l₁).Perm l₁ := List.perm_insertionSort keyLe l₁
  have hperm₂ : (sortEnv l₂).Perm l₂ := List.perm_insertionSort keyLe l₂
  have hn₂ : (l₂.map Prod.fst).Nodup := ((hp.map Prod.fst).nodup_iff).mp hn
  have hn₁s : ((sortEnv l₁).map Prod.fst).Nodup :=
    ((hperm₁.map Prod.fst).nodup_iff).mpr hn
  have hn₂s : ((sortEnv l₂).map Prod.fst).Nodup :=
    ((hperm₂.map Prod.fst).nodup_iff).mpr hn₂
  have hs₁ : (sortEnv l₁).Sorted keyLt :=
    sorted_keyLt_of_nodupKeys (List.sorted_insertionSort keyLe l₁) hn₁s
  have hs₂ : (sortEnv l₂).Sorted keyLt :=
    sorted_keyLt_of_nodupKeys (List.sorted_insertionSort keyLe l₂) hn₂s
  exact List.eq_of_perm_of_sorted (hperm₁.trans (hp.trans hperm₂.symm)) hs₁ hs₂

/-! ### Claims -/

/-- Concrete container definition used by the C1 counterexample. -/
def cfgC1 : ContainerConfig :=
  { name := "dev", base_image := some "ubuntu:22.04", command := none,
    environment := none, dependencies := [] }

/-- C1 counterexample: with no prior lockfile, an invocation of the build
operation in which the engine reports a failed build nevertheless leaves a
persisted lockfile behind (the freshly generated one), so the persisted
lockfile afterward is not byte-identical to its prior absence. -/
theorem C1_counterexample :
    (build_containers [("dev", cfgC1)] (fun _ => false) none
        { containers_lock := none }).1 =
      Except.error (BuildError.buildFailed "dev") ∧
    (build_containers [("dev", cfgC1)] (fun _ => false) none
        { containers_lock := none }).2.containers_lock =
      some (generate_from_config [("dev", cfgC1)]) ∧
    some (generate_from_config [("dev", cfgC1)]) ≠
      (none : Option ContainersLockfile) := by
  refine ⟨rfl, rfl, ?_⟩
  simp

/-- C1 (amended): `build_containers` regenerates the lockfile from the config
and persists it before any build is invoked; the engine outcomes never touch
it again, so after every invocation — a failed build included — the persisted
lockfile is the freshly generated one, not the pre-invocation record. -/
theorem C1_lockfile_persisted_before_build
    (cfg : List (String × ContainerConfig)) (engine : String → Bool)
    (target : Option String) (s : FsState) :
    (build_containers cfg engine target s).2.containers_lock =
      some (generate_from_config cfg) := rfl

/-- C2 counterexample: with the force flag unset, the engine reporting the
image present, and the lockfile-change check reporting a change, the claimed
decision procedure says Build, but the code — which consults no lockfile-change
check at all — skips. -/
theorem C2_counterexample :
    planClaim false true true = Plan.Build ∧
    buildPlan true false true = Plan.Skip :=
  ⟨rfl, rfl⟩

/-- C2 (amended): when the Dockerfile exists, the decision order is: force flag
set → Build; engine reports the image absent → Build; otherwise Skip. No
lockfile-change check takes part. In particular, with the force flag unset and
the image present the plan is Skip and no build is invoked. -/
theorem C2_plan_order :
    (∀ u e, buildPlan true u e =
      if u then Plan.Build else if !e then Plan.Build else Plan.Skip) ∧
    (∀ d, buildPlan d false true = Plan.Skip) := by
  constructor
  · intro u e
    cases u <;> cases e <;> rfl
  · intro d
    cases d <;> rfl

/-- C3: lifecycle reconciliation is a single pass through the state table:
Running → exec only (never create or start); exists-but-stopped → start then
exec, in that order; absent → create-and-run only. -/
theorem C3_reconcile_table :
    (reconcile true true = [EngineAction.exec] ∧
      EngineAction.createAndRun ∉ reconcile true true ∧
      EngineAction.start ∉ reconcile true true) ∧
    reconcile true false = [EngineAction.start, EngineAction.exec] ∧
    (∀ r, reconcile false r = [EngineAction.createAndRun]) := by
  refine ⟨⟨rfl, ?_, ?_⟩, rfl, ?_⟩
  · decide
  · decide
  · intro r
    cases r <;> rfl

/-- Stored lockfile used by the C4 counterexample: it holds a record whose hash
and size match the current file, with only the modification time differing. -/
def lfC4 : Lockfile :=
  { version := 1,
    dockerfiles :=
      [("Dockerfile", { content_hash := "h", modified_time := 10, size := 0 })] }

/-- The current file observation of the C4 counterexample. -/
def fileC4 : FileData := { content := [], mtime := 11 }

/-- C4 counterexample: the stored and current hash agree (and so do the sizes),
only the modification time differs — the code reports "changed", while a check
in which the content-hash comparison is authoritative reports "unchanged". The
hash comparison is therefore not authoritative; any of the three comparisons
triggers a change. -/
theorem C4_counterexample :
    Lockfile.has_dockerfile_changed (fun _ => "h") lfC4 "Dockerfile" fileC4 =
      true ∧
    hashAuthoritativeChanged (fun _ => "h") lfC4 "Dockerfile" fileC4 = false :=
  ⟨rfl, rfl⟩

/-- C4 (amended): `has_dockerfile_changed` recomputes the hash unconditionally
(no fast path precedes it) and reports "unchanged" exactly when a stored record
exists whose content hash, modification time and size all equal the current
ones; a mismatch in any of the three — the hash included, but not it alone —
is a change signal. -/
theorem C4_change_check_characterization (hashFn : List Nat → String)
    (lf : Lockfile) (p : String) (f : FileData) :
    Lockfile.has_dockerfile_changed hashFn lf p f = false ↔
      ∃ st, lf.dockerfiles.lookup p = some st ∧
        st.content_hash = hashFn f.content ∧
        st.modified_time = f.mtime ∧
        st.size = f.content.length := by
  unfold Lockfile.has_dockerfile_changed DockerfileInfo.from_path
  cases h : lf.dockerfiles.lookup p with
  | none => simp [h]
  | some st => simp [h, and_assoc]

/-- C5: loading the lockfile never fails when the backing file is missing — it
returns the empty store — and it fails exactly when the file exists but its
contents cannot be parsed; malformed persisted data is never treated as the
absence of a prior record. -/
theorem C5_load_or_create_total (parse : String → Option Lockfile)
    (fs : Option String) :
    load_or_create parse none = Except.ok Lockfile.new ∧
    ((load_or_create parse fs).isOk = false ↔
      ∃ c, fs = some c ∧ parse c = none) := by
  refine ⟨rfl, ?_⟩
  cases fs with
  | none => simp [load_or_create, Except.isOk, Except.toBool]
  | some c =>
      cases h : parse c <;>
        simp [load_or_create, h, Except.isOk, Except.toBool]

/-- C6: for every store and tracked path, the change check returns true when
the store holds no record for that path. -/
theorem C6_missing_record_is_changed (hashFn : List Nat → String)
    (lf : Lockfile) (p : String) (f : FileData)
    (h : lf.dockerfiles.lookup p = none) :
    Lockfile.has_dockerfile_changed hashFn lf p f = true := by
  simp [Lockfile.has_dockerfile_changed, h]

/-- Witness for C6 on the empty store. -/
theorem C6_witness :
    Lockfile.new.dockerfiles.lookup "Dockerfile" = none ∧
    Lockfile.has_dockerfile_changed (fun _ => "h") Lockfile.new "Dockerfile"
        { content := [], mtime := 0 } = true :=
  ⟨rfl,
   C6_missing_record_is_changed (fun _ => "h") Lockfile.new "Dockerfile"
     { content := [], mtime := 0 } rfl⟩

/-- C7 counterexample: an attached exec session ending with exit status 3 is
wrapped by `ContainerEngine::exec_container` as a `CommandFailed` tool error —
not forwarded — whereas the `run` attach path does forward the same status
unchanged. -/
theorem C7_counterexample :
    exec_container "dev" { code := some 3 } =
      Except.error (ContainerError.CommandFailed "exec -it dev /bin/bash") ∧
    forward_exit { code := some 3 } = RunResult.exited 3 :=
  ⟨rfl, rfl⟩

/-- C7 (amended): when the attached session ends unsuccessfully, the `run`
attach path of `run_container` forwards the exit status of the session unchanged as
the process exit code (1 when no code is available), while
`ContainerEngine::exec_container` instead wraps the outcome as a
`CommandFailed` tool error. -/
theorem C7_exit_forwarding (st : ExitStatus) (h : st.success = false) :
    forward_exit st = RunResult.exited (st.code.getD 1) ∧
    ∀ name, exec_container name st =
      Except.error (ContainerError.CommandFailed
        ("exec -it " ++ name ++ " /bin/bash")) := by
  constructor
  · simp [forward_exit, h]
  · intro name
    simp [exec_container, h]

/-- Witness for C7 (amended) at exit status 3. -/
theorem C7_witness :
    forward_exit { code := some 3 } =
      RunResult.exited ((some (3 : Int)).getD 1) ∧
    exec_container "dev" { code := some 3 } =
      Except.error (ContainerError.CommandFailed "exec -it dev /bin/bash") :=
  ⟨(C7_exit_forwarding { code := some 3 } rfl).1,
   (C7_exit_forwarding { code := some 3 } rfl).2 "dev"⟩

/-- C8: the generator renders the environment block from the entries sorted by
key — the rendered entry list is key-sorted and is exactly the declared
environment entries — so any two definitions whose environment mappings are equal as
maps (permutations of each other, no duplicate keys) render byte-identical
Dockerfiles. -/
theorem C8_generate_env_sorted (config : ContainerConfig) (lock : ContainerLock)
    (env₁ env₂ : List (String × String)) (hp : env₁.Perm env₂)
    (hn : (env₁.map Prod.fst).Nodup) :
    (sortEnv env₁).Sorted keyLe ∧ (sortEnv env₁).Perm env₁ ∧
    generate { config with environment := some env₁ } lock =
      generate { config with environment := some env₂ } lock := by
  refine ⟨List.sorted_insertionSort keyLe env₁,
    List.perm_insertionSort keyLe env₁, ?_⟩
  have h := sortEnv_eq_of_perm hp hn
  simp [generate, envBlock, h]

/-- Concrete definition used by the C8 witness. -/
def cfgC8 : ContainerConfig :=
  { name := "dev", base_image := some "ubuntu:22.04", command := none,
    environment := none, dependencies := [] }

/-- Concrete lock record used by the C8 witness. -/
def lockC8 : ContainerLock :=
  { base_image := "ubuntu:22.04", dependencies := [],
    image_hash := "containers-dev" }

/-- Witness for C8: two insertion orders of the same environment mapping render
the same Dockerfile. -/
theorem C8_witness :
    generate { cfgC8 with environment := some [("B", "2"), ("A", "1")] }
        lockC8 =
      generate { cfgC8 with environment := some [("A", "1"), ("B", "2")] }
        lockC8 :=
  (C8_generate_env_sorted cfgC8 lockC8 [("B", "2"), ("A", "1")]
    [("A", "1"), ("B", "2")] (by decide) (by decide)).2.2

/-- C9: parsing round-trips with display — `from_str (display e) = Ok e` — and
is case-insensitive: a string parses to Docker (resp. Podman) exactly when its
lowercase form is "docker" (resp. "podman"), and errors exactly otherwise. -/
theorem C9_engine_type_roundtrip :
    (∀ e, EngineType.from_str (EngineType.display e) = Except.ok e) ∧
    (∀ s, EngineType.from_str s = Except.ok EngineType.Docker ↔
      toLowerStr s = "docker") ∧
    (∀ s, EngineType.from_str s = Except.ok EngineType.Podman ↔
      toLowerStr s = "podman") ∧
    (∀ s, (EngineType.from_str s).isOk = false ↔
      (toLowerStr s ≠ "docker" ∧ toLowerStr s ≠ "podman")) := by
  refine ⟨?_, ?_, ?_, ?_⟩
  · intro e
    cases e <;> rfl
  · intro s
    by_cases h1 : toLowerStr s = "docker"
    · simp [EngineType.from_str, h1]
    · by_cases h2 : toLowerStr s = "podman"
      · simp [EngineType.from_str, h1, h2]
      · simp [EngineType.from_str, h1, h2]
  · intro s
    by_cases h1 : toLowerStr s = "docker"
    · simp [EngineType.from_str, h1]
    · by_cases h2 : toLowerStr s = "podman"
      · simp [EngineType.from_str, h1, h2]
      · simp [EngineType.from_str, h1, h2]
  · intro s
    by_cases h1 : toLowerStr s = "docker"
    · simp [EngineType.from_str, h1, Except.isOk, Except.toBool]
    · by_cases h2 : toLowerStr s = "podman"
      · simp [EngineType.from_str, h1, h2, Except.isOk, Except.toBool]
      · simp [EngineType.from_str, h1, h2, Except.isOk, Except.toBool]

/-- C10: after `update_dockerfile_info` stores the current observation of a
file, `has_dockerfile_changed` on the same observation (same content bytes,
size and modification time at both calls) reports unchanged. -/
theorem C10_update_then_unchanged (hashFn : List Nat → String) (lf : Lockfile)
    (p : String) (f : FileData) :
    Lockfile.has_dockerfile_changed hashFn
      (Lockfile.update_dockerfile_info hashFn lf p f) p f = false := by
  simp [Lockfile.has_dockerfile_changed, Lockfile.update_dockerfile_info,
    mapInsert, DockerfileInfo.from_path, List.lookup]
